import Mathlib

/-
A shallow embedding of the ca-signer broker (main.go / examples/client.go):
the `/sign` request pipeline — JSON decode, `SignRequest.Validate`, SAN
construction, subject derivation via `generateSubject`, the token-mint and
sign calls against the provisioner, and the HTTP responses — together with
the path-routing of the HTTP handler.
-/

namespace CaSigner

/-- A parsed X.509 certificate signing request as the handler consumes it:
the subject common name and the SAN-relevant fields. IP addresses and URIs
are carried already rendered to strings, exactly as `ip.String()` and
`u.String()` produce them in the handler's loops. `checkSignature` models
the result of `CertificateRequest.CheckSignature()`: `none` means the
self-signature verifies, `some e` is the verification error message. -/
structure CSR where
  commonName : String
  dnsNames : List String
  emailAddresses : List String
  ipAddresses : List String
  uris : List String
  checkSignature : Option String
  deriving DecidableEq, Repr

/-- The decoded JSON body of a `/sign` request: `csr` (a nil
`CertificateRequest` after decoding is `none`) and the `notAfter`
duration field (opaque here). -/
structure SignRequest where
  csrPEM : Option CSR
  notAfter : String
  deriving DecidableEq, Repr

/-- `SignRequest.Validate`: errs with `missing csr` when the decoded request
carries no certificate request, and with `invalid csr` (wrapping the
signature-verification error) when `CheckSignature` fails. An error is the
pair (user-visible message, wrapped cause). -/
def SignRequest.Validate (s : SignRequest) : Except (String × Option String) Unit :=
  match s.csrPEM with
  | none => .error ("missing csr", none)
  | some csr =>
    match csr.checkSignature with
    | some e => .error ("invalid csr", some e)
    | none => .ok ()

/-- The scan loop inside `generateSubject`: the first SAN entry that is
neither `"127.0.0.1"` nor `"localhost"`, if any. -/
def findNonLocal : List String → Option String
  | [] => none
  | s :: rest =>
    if s ≠ "127.0.0.1" ∧ s ≠ "localhost" then some s else findNonLocal rest

/-- `generateSubject` from main.go: `"127.0.0.1"` for an empty SAN list,
otherwise the first entry that is neither `"127.0.0.1"` nor `"localhost"`,
falling back to `sans[0]` when every entry is one of those two. -/
def generateSubject (sans : List String) : String :=
  match sans with
  | [] => "127.0.0.1"
  | s :: rest =>
    match findNonLocal (s :: rest) with
    | some t => t
    | none => s

/-- The SAN list the handler builds from the CSR: DNS names appended to an
empty slice, then email addresses, then each IP address string in a loop,
then each URI string in a loop. -/
def buildSANs (csr : CSR) : List String :=
  let sans := ([] : List String) ++ csr.dnsNames
  let sans := sans ++ csr.emailAddresses
  let sans := csr.ipAddresses.foldl (fun acc ip => acc ++ [ip]) sans
  csr.uris.foldl (fun acc u => acc ++ [u]) sans

/-- The subject the handler derives: the CSR's common name when non-empty,
else `generateSubject` applied to the SAN list it just built. -/
def subjectOf (csr : CSR) : String :=
  if csr.commonName = "" then generateSubject (buildSANs csr) else csr.commonName

/-- An upstream (provisioner / CA) error, surfaced by `render.Error` with
the status and message the upstream reported. -/
structure UpstreamError where
  status : Nat
  message : String
  deriving DecidableEq, Repr

/-- The CA's sign response: certificate material returned to the caller. -/
structure SignResponse where
  certPEM : String
  caPEM : String
  certChainPEM : List String
  deriving DecidableEq, Repr

/-- The provisioner client handle: `Token subject sans...` mints a one-time
authorization token, `Sign` forwards CSR + token + notAfter to the CA. -/
structure Provisioner where
  token : String → List String → Except UpstreamError String
  sign : CSR → String → String → Except UpstreamError SignResponse

/-- One observable call on the provisioner client, recorded in order. -/
inductive PEvent where
  | mint (subject : String) (sans : List String)
  | sign (csr : CSR) (ott : String) (notAfter : String)
  deriving DecidableEq, Repr

/-- An HTTP response of the handler: `http.NotFound`, a `render.Error` of a
`BadRequest` (message plus wrapped cause), a passed-through upstream error,
or `render.JSONStatus` of the sign response with `201 Created`. -/
inductive HResp where
  | notFound
  | badRequest (msg : String) (cause : Option String)
  | upstream (e : UpstreamError)
  | created (res : SignResponse)
  deriving DecidableEq, Repr

/-- The HTTP status code each response is written with. -/
def statusOf : HResp → Nat
  | .notFound => 404
  | .badRequest _ _ => 400
  | .upstream e => e.status
  | .created _ => 201

/-- The request body as the JSON decoder sees it: either a decode failure
carrying the parse error, or a decoded `SignRequest`. -/
inductive Body where
  | malformed (parseErr : String)
  | parsed (req : SignRequest)
  deriving DecidableEq, Repr

/-- Whether a provisioner-call event is a token mint. -/
def isMint : PEvent → Bool
  | .mint _ _ => true
  | .sign _ _ _ => false

/-- Number of token-mint calls in a call trace. -/
def countMints (tr : List PEvent) : Nat :=
  (tr.filter isMint).length

/-- The `/sign` pipeline for a decoded request, returning the response and
the ordered trace of provisioner calls. Mirrors the handler body: the two
`Validate` checks, SAN construction, subject derivation, the mint call,
then the sign call, each failure rendered and stopping the pipeline. -/
def handleSign (p : Provisioner) (req : SignRequest) : HResp × List PEvent :=
  match req.csrPEM with
  | none => (.badRequest "missing csr" none, [])
  | some csr =>
    match csr.checkSignature with
    | some e => (.badRequest "invalid csr" (some e), [])
    | none =>
      let sans := buildSANs csr
      let subject := if csr.commonName = "" then generateSubject sans else csr.commonName
      match p.token subject sans with
      | .error e => (.upstream e, [.mint subject sans])
      | .ok tok =>
        match p.sign csr tok req.notAfter with
        | .error e => (.upstream e, [.mint subject sans, .sign csr tok req.notAfter])
        | .ok res => (.created res, [.mint subject sans, .sign csr tok req.notAfter])

/-- The `/sign` handler on a raw body: a JSON decode failure renders
`BadRequest` ("error reading request body" wrapping the parse error) and
does nothing further; a decoded body runs the pipeline. -/
def handle (p : Provisioner) (b : Body) : HResp × List PEvent :=
  match b with
  | .malformed e => (.badRequest "error reading request body" (some e), [])
  | .parsed req => handleSign p req

/-- An inbound HTTP request as the router can observe it. -/
structure HttpRequest where
  method : String
  path : String
  contentType : String
  body : Body
  deriving Repr

/-- The server's single `http.HandlerFunc`: every request whose URL path is
not exactly `/sign` gets `http.NotFound`; a `/sign` request runs the
handler on its body. Only the path is inspected. -/
def route (p : Provisioner) (r : HttpRequest) : HResp × List PEvent :=
  if r.path ≠ "/sign" then (.notFound, []) else handle p r.body

/-- A CSR like the one the example client builds: common name
`example.com`, a valid self-signature. -/
def csrCN : CSR :=
  { commonName := "example.com"
    dnsNames := ["example.com"]
    emailAddresses := []
    ipAddresses := ["10.0.0.1"]
    uris := []
    checkSignature := none }

/-- A validly signed CSR with empty common name whose only SAN entry is the
empty string. -/
def csrEmptySAN : CSR :=
  { commonName := ""
    dnsNames := [""]
    emailAddresses := []
    ipAddresses := []
    uris := []
    checkSignature := none }

/-- A validly signed CSR with empty common name and SANs
`["localhost", "127.0.0.1", "api.example.com"]`. -/
def csrSANOnly : CSR :=
  { commonName := ""
    dnsNames := ["localhost", "127.0.0.1", "api.example.com"]
    emailAddresses := []
    ipAddresses := []
    uris := []
    checkSignature := none }

/-- A provisioner whose mint and sign calls both succeed. -/
def pOk : Provisioner :=
  { token := fun _ _ => .ok "ott-1"
    sign := fun _ _ _ => .ok { certPEM := "crt", caPEM := "ca", certChainPEM := ["crt", "ca"] } }

/-- A provisioner whose mint succeeds and whose sign call fails upstream. -/
def pSignFail : Provisioner :=
  { token := fun _ _ => .ok "ott-1"
    sign := fun _ _ _ => .error { status := 502, message := "sign failed" } }

/-! ## Helper lemmas -/

/-- Left-folding appends of singletons onto an accumulator concatenates
the folded list onto the accumulator. -/
theorem foldl_push (l acc : List String) :
    l.foldl (fun a x => a ++ [x]) acc = acc ++ l := by
  induction l generalizing acc with
  | nil => simp
  | cons x xs ih => simp [List.foldl_cons, ih]

/-- The SAN list the handler builds is the plain concatenation of the four
CSR name fields, in order. -/
theorem buildSANs_eq (csr : CSR) :
    buildSANs csr =
      csr.dnsNames ++ csr.emailAddresses ++ csr.ipAddresses ++ csr.uris := by
  simp [buildSANs, foldl_push]

/-- Anything `findNonLocal` returns is a member of the scanned list. -/
theorem findNonLocal_mem {l : List String} {t : String}
    (h : findNonLocal l = some t) : t ∈ l := by
  induction l with
  | nil => simp [findNonLocal] at h
  | cons s rest ih =>
    by_cases hc : s ≠ "127.0.0.1" ∧ s ≠ "localhost"
    · rw [findNonLocal, if_pos hc] at h
      exact (Option.some_inj.mp h) ▸ List.mem_cons_self s rest
    · rw [findNonLocal, if_neg hc] at h
      exact List.mem_cons_of_mem s (ih h)

/-- The `generateSubject` scan is `List.find?` with the
neither-loopback-nor-localhost predicate. -/
theorem findNonLocal_eq_find (l : List String) :
    findNonLocal l =
      l.find? (fun x => decide (x ≠ "127.0.0.1" ∧ x ≠ "localhost")) := by
  induction l with
  | nil => rfl
  | cons s rest ih =>
    by_cases hc : s ≠ "127.0.0.1" ∧ s ≠ "localhost"
    · simp [findNonLocal, hc, List.find?]
    · simp only [findNonLocal, if_neg hc, ih, List.find?]
      have : (decide (s ≠ "127.0.0.1" ∧ s ≠ "localhost")) = false := by
        simpa using hc
      rw [this]

/-! ## Claim theorems -/

/-- Claim C1: for every parsed signing request, the derived subject is the
CSR's common name when that is non-empty; when the common name is empty and
the SAN sequence is empty, it is the literal `"127.0.0.1"`; when the common
name is empty and the SAN sequence is non-empty, it is the first SAN entry
that is neither `"127.0.0.1"` nor `"localhost"`, falling back to the first
SAN entry when no entry qualifies. -/
theorem subject_derivation (csr : CSR) :
    (csr.commonName ≠ "" → subjectOf csr = csr.commonName) ∧
    (csr.commonName = "" → buildSANs csr = [] → subjectOf csr = "127.0.0.1") ∧
    (csr.commonName = "" → ∀ s rest, buildSANs csr = s :: rest →
      subjectOf csr =
        (((s :: rest).find?
            (fun x => decide (x ≠ "127.0.0.1" ∧ x ≠ "localhost"))).getD s)) := by
  refine ⟨fun hcn => ?_, fun hcn hsans => ?_, fun hcn s rest hsans => ?_⟩
  · simp [subjectOf, hcn]
  · simp [subjectOf, hcn, hsans, generateSubject]
  · rw [subjectOf, if_pos hcn, hsans, generateSubject, findNonLocal_eq_find]
    cases hfind : (s :: rest).find?
        (fun x => decide (x ≠ "127.0.0.1" ∧ x ≠ "localhost")) with
    | none => rfl
    | some t => rfl

/-- Witness for C1 at the spec's own example: common name empty, SANs
`["localhost", "127.0.0.1", "api.example.com"]` derive
`"api.example.com"`. -/
theorem subject_derivation_witness :
    subjectOf csrSANOnly = "api.example.com" := by
  have h := (subject_derivation csrSANOnly).2.2 rfl
      "localhost" ["127.0.0.1", "api.example.com"] (by decide)
  simpa using h

/-- Counterexample to claim C7: a signing request that passes `Validate`
(valid signature, CSR present) whose common name is empty and whose only
SAN entry is the empty string derives the empty subject — the empty string
qualifies in the `generateSubject` scan, so the derived subject is `""`. -/
theorem empty_subject_counterexample :
    SignRequest.Validate { csrPEM := some csrEmptySAN, notAfter := "1h" } = .ok () ∧
    csrEmptySAN.commonName = "" ∧
    subjectOf csrEmptySAN = "" := by
  refine ⟨rfl, rfl, ?_⟩
  simp [subjectOf, csrEmptySAN, buildSANs, generateSubject, findNonLocal]

/-- Claim C7 as amended: for every signing request that passes validation
and whose SAN list contains no empty entry, the derived subject is
non-empty — in particular whenever the common name is empty, the subject
derived from the SAN list is a non-empty string. -/
theorem subject_nonempty (csr : CSR) (hne : "" ∉ buildSANs csr) :
    subjectOf csr ≠ "" := by
  rw [subjectOf]
  by_cases hcn : csr.commonName = ""
  · rw [if_pos hcn]
    cases hsans : buildSANs csr with
    | nil => simp [generateSubject]
    | cons s rest =>
      rw [generateSubject]
      cases hfind : findNonLocal (s :: rest) with
      | some t =>
        intro ht
        exact hne (hsans ▸ (ht ▸ findNonLocal_mem hfind))
      | none =>
        intro hs
        exact hne (hsans ▸ hs ▸ List.mem_cons_self s rest)
  · rw [if_neg hcn]
    exact hcn

/-- Witness for the amended C7: a validated request with empty common name
and SANs `["localhost", "127.0.0.1", "api.example.com"]` (no empty entry)
derives a non-empty subject. -/
theorem subject_nonempty_witness :
    subjectOf csrSANOnly ≠ "" :=
  subject_nonempty csrSANOnly (by decide)

/-- Claim C3: the SAN sequence the handler passes to identity derivation
and to the token-mint call is DNS names, then email addresses, then IP
address strings, then URI strings, in that order, duplicates preserved: for
every validly signed CSR the first provisioner call recorded is a mint with
exactly that SAN list (and the subject derived from it). -/
theorem san_order (p : Provisioner) (csr : CSR) (na : String)
    (hs : csr.checkSignature = none) :
    buildSANs csr =
      csr.dnsNames ++ csr.emailAddresses ++ csr.ipAddresses ++ csr.uris ∧
    (handle p (.parsed { csrPEM := some csr, notAfter := na })).2.head? =
      some (.mint (subjectOf csr)
        (csr.dnsNames ++ csr.emailAddresses ++ csr.ipAddresses ++ csr.uris)) := by
  refine ⟨buildSANs_eq csr, ?_⟩
  rw [← buildSANs_eq csr]
  show (handleSign p { csrPEM := some csr, notAfter := na }).2.head? = _
  rw [handleSign]
  simp only [hs]
  have hsubj : (if csr.commonName = ""
      then generateSubject (buildSANs csr) else csr.commonName) = subjectOf csr := rfl
  cases htok : p.token (if csr.commonName = ""
      then generateSubject (buildSANs csr) else csr.commonName) (buildSANs csr) with
  | error e => simp [htok, hsubj]
  | ok tok =>
    cases hsign : p.sign csr tok na with
    | error e => simp [htok, hsign, hsubj]
    | ok res => simp [htok, hsign, hsubj]

/-- Witness for C3: the example-client-style CSR (a DNS name and an IP
address) yields a mint call whose SAN list is the DNS names followed by the
IP strings. -/
theorem san_order_witness :
    (handle pOk (.parsed { csrPEM := some csrCN, notAfter := "1h" })).2.head? =
      some (.mint "example.com" ["example.com", "10.0.0.1"]) := by
  have h := (san_order pOk csrCN "1h" rfl).2
  simpa [csrCN, subjectOf] using h

/-- Claim C2: when the body decodes to a request with a validly signed CSR
and the provisioner's mint and sign calls both succeed, the handler makes
exactly one mint call followed by exactly one sign call, in that order, and
responds `201 Created` with the returned certificate material; 201 is the
only status a `created` response ever carries. -/
theorem success_path (p : Provisioner) (csr : CSR) (na tok : String)
    (res : SignResponse)
    (hs : csr.checkSignature = none)
    (ht : p.token (subjectOf csr) (buildSANs csr) = .ok tok)
    (hg : p.sign csr tok na = .ok res) :
    handle p (.parsed { csrPEM := some csr, notAfter := na }) =
      (.created res,
        [.mint (subjectOf csr) (buildSANs csr), .sign csr tok na]) ∧
    statusOf (HResp.created res) = 201 ∧
    ∀ b r tr, handle p b = (r, tr) → (∃ x, r = HResp.created x) →
      statusOf r = 201 := by
  refine ⟨?_, rfl, fun b r tr _ hx => ?_⟩
  · show handleSign p { csrPEM := some csr, notAfter := na } = _
    rw [handleSign]
    simp only [hs]
    have hsubj : (if csr.commonName = ""
        then generateSubject (buildSANs csr) else csr.commonName) = subjectOf csr := rfl
    rw [hsubj]
    simp only [ht, hg]
  · obtain ⟨x, hx⟩ := hx
    rw [hx]
    rfl

/-- Witness for C2: the example-client CSR against an all-succeeding
provisioner yields `201 Created` with the provisioner's response and the
trace mint-then-sign. -/
theorem success_path_witness :
    handle pOk (.parsed { csrPEM := some csrCN, notAfter := "1h" }) =
      (.created { certPEM := "crt", caPEM := "ca", certChainPEM := ["crt", "ca"] },
        [.mint "example.com" ["example.com", "10.0.0.1"],
         .sign csrCN "ott-1" "1h"]) := by
  have h := (success_path pOk csrCN "1h" "ott-1"
      { certPEM := "crt", caPEM := "ca", certChainPEM := ["crt", "ca"] }
      rfl rfl rfl).1
  simpa [csrCN, subjectOf] using h

/-- Claim C4: a decoded body lacking a `csr` field, and a decoded body whose
CSR's signature does not verify, both fail `Validate`, are answered with
`BadRequest` (status 400), and produce an empty provisioner-call trace —
neither a mint nor a sign call. -/
theorem validate_rejects (p : Provisioner) (req : SignRequest) :
    (req.csrPEM = none →
      req.Validate = .error ("missing csr", none) ∧
      handle p (.parsed req) = (.badRequest "missing csr" none, []) ∧
      statusOf (HResp.badRequest "missing csr" none) = 400) ∧
    (∀ csr e, req.csrPEM = some csr → csr.checkSignature = some e →
      req.Validate = .error ("invalid csr", some e) ∧
      handle p (.parsed req) = (.badRequest "invalid csr" (some e), []) ∧
      statusOf (HResp.badRequest "invalid csr" (some e)) = 400) := by
  refine ⟨fun hnone => ?_, fun csr e hsome hsig => ?_⟩
  · refine ⟨?_, ?_, rfl⟩
    · rw [SignRequest.Validate, hnone]
    · show handleSign p req = _
      rw [handleSign, hnone]
  · refine ⟨?_, ?_, rfl⟩
    · rw [SignRequest.Validate]
      simp only [hsome, hsig]
    · show handleSign p req = _
      rw [handleSign]
      simp only [hsome, hsig]

/-- Witness for C4, both branches: a body with no `csr`, and a body whose
CSR's signature check fails, each yield a 400 `BadRequest` and an empty
call trace. -/
theorem validate_rejects_witness :
    handle pOk (.parsed { csrPEM := none, notAfter := "1h" }) =
      (.badRequest "missing csr" none, []) ∧
    handle pOk (.parsed
        { csrPEM := some { csrCN with checkSignature := some "x509: bad sig" },
          notAfter := "1h" }) =
      (.badRequest "invalid csr" (some "x509: bad sig"), []) :=
  ⟨((validate_rejects pOk { csrPEM := none, notAfter := "1h" }).1 rfl).2.1,
   ((validate_rejects pOk
        { csrPEM := some { csrCN with checkSignature := some "x509: bad sig" },
          notAfter := "1h" }).2
      { csrCN with checkSignature := some "x509: bad sig" }
      "x509: bad sig" rfl rfl).2.1⟩

/-- Claim C5: when the mint call succeeds and the sign call fails, the
handler responds with exactly the upstream error the sign call reported
(same status and message, no reinterpretation) and the trace holds exactly
one mint call — no second mint, no retry. -/
theorem sign_failure_passthrough (p : Provisioner) (csr : CSR)
    (na tok : String) (e : UpstreamError)
    (hs : csr.checkSignature = none)
    (ht : p.token (subjectOf csr) (buildSANs csr) = .ok tok)
    (hg : p.sign csr tok na = .error e) :
    handle p (.parsed { csrPEM := some csr, notAfter := na }) =
      (.upstream e,
        [.mint (subjectOf csr) (buildSANs csr), .sign csr tok na]) ∧
    statusOf (HResp.upstream e) = e.status ∧
    countMints
      (handle p (.parsed { csrPEM := some csr, notAfter := na })).2 = 1 := by
  have hmain : handle p (.parsed { csrPEM := some csr, notAfter := na }) =
      (.upstream e,
        [.mint (subjectOf csr) (buildSANs csr), .sign csr tok na]) := by
    show handleSign p { csrPEM := some csr, notAfter := na } = _
    rw [handleSign]
    simp only [hs]
    have hsubj : (if csr.commonName = ""
        then generateSubject (buildSANs csr) else csr.commonName) = subjectOf csr := rfl
    rw [hsubj]
    simp only [ht, hg]
  refine ⟨hmain, rfl, ?_⟩
  rw [hmain]
  rfl

/-- Witness for C5: the example-client CSR against a provisioner whose sign
call fails with a 502 yields that 502 upstream error unchanged and a trace
with exactly one mint. -/
theorem sign_failure_passthrough_witness :
    handle pSignFail (.parsed { csrPEM := some csrCN, notAfter := "1h" }) =
      (.upstream { status := 502, message := "sign failed" },
        [.mint "example.com" ["example.com", "10.0.0.1"],
         .sign csrCN "ott-1" "1h"]) := by
  have h := (sign_failure_passthrough pSignFail csrCN "1h" "ott-1"
      { status := 502, message := "sign failed" } rfl rfl rfl).1
  simpa [csrCN, subjectOf] using h

/-- Claim C8: a body that fails to decode as JSON into a `SignRequest` is
answered with `BadRequest` (status 400) whose message names the parse
error, and the provisioner-call trace is empty — no validation, no
derivation, no provisioner call happens after the decode failure. -/
theorem parse_failure (p : Provisioner) (e : String) :
    handle p (.malformed e) =
      (.badRequest "error reading request body" (some e), []) ∧
    statusOf (HResp.badRequest "error reading request body" (some e)) = 400 :=
  ⟨rfl, rfl⟩

/-- A DELETE request to a path the server does not serve. -/
def reqFoo : HttpRequest :=
  { method := "DELETE", path := "/foo", contentType := "",
    body := .malformed "EOF" }

/-- A GET `/sign` request with a text Content-Type and a decodable body. -/
def reqSignGet : HttpRequest :=
  { method := "GET", path := "/sign", contentType := "text/plain",
    body := .parsed { csrPEM := some csrCN, notAfter := "1h" } }

/-- A POST `/sign` request with the JSON Content-Type and the same body as
`reqSignGet`. -/
def reqSignPost : HttpRequest :=
  { method := "POST", path := "/sign", contentType := "application/json",
    body := .parsed { csrPEM := some csrCN, notAfter := "1h" } }

/-- A GET request to `/healthz` (its empty body does not decode). -/
def reqHealthz : HttpRequest :=
  { method := "GET", path := "/healthz", contentType := "",
    body := .malformed "EOF" }

/-- Claim C10: routing depends only on the URL path — any request whose
path is not exactly `/sign` gets a 404 with no provisioner call, and two
`/sign` requests with the same body are processed identically whatever
their methods and Content-Type headers, which the handler never inspects. -/
theorem path_only_routing (p : Provisioner) (r r2 : HttpRequest) :
    (r.path ≠ "/sign" →
      route p r = (.notFound, []) ∧ statusOf HResp.notFound = 404) ∧
    (r.path = "/sign" → r2.path = "/sign" → r.body = r2.body →
      route p r = route p r2) := by
  constructor
  · intro hne
    exact ⟨by rw [route, if_pos hne], rfl⟩
  · intro h1 h2 hb
    rw [route, route, if_neg (by rw [h1]; exact fun hx => hx rfl),
      if_neg (by rw [h2]; exact fun hx => hx rfl), hb]

/-- Witness for C10: a DELETE to `/foo` is answered 404 with no provisioner
call, and a GET `/sign` with Content-Type `text/plain` is handled exactly
like a POST `/sign` with Content-Type `application/json` carrying the same
body. -/
theorem path_only_routing_witness :
    route pOk reqFoo = (.notFound, []) ∧
    route pOk reqSignGet = route pOk reqSignPost :=
  ⟨((path_only_routing pOk reqFoo reqFoo).1 (by decide)).1,
   (path_only_routing pOk reqSignGet reqSignPost).2 rfl rfl rfl⟩

/-- Claim C6 evaluated on the code: the single handler function 404s every
path other than `/sign`, so a GET to `/healthz` is answered
`404 Not Found` — not the 200 / body `ok` that the claim (and the repo's
README) state. -/
theorem healthz_gets_404 :
    route pOk reqHealthz = (.notFound, []) ∧
    statusOf HResp.notFound = 404 ∧ statusOf HResp.notFound ≠ 200 := by
  refine ⟨?_, rfl, by decide⟩
  rw [route, if_pos (by decide)]

end CaSigner
